import Mathlib

/-!
Shallow embedding of the OpenSati stress-detection core
(`src/opensati/core/sensors.py`, `src/opensati/core/detector.py`,
`src/opensati/ai/intent.py`, `src/opensati/ai/ollama_client.py`).

Times and scores are modelled as rationals (`ℚ`): the Python code uses
floats but every claim is about the exact arithmetic contract, not about
floating-point rounding.  Python division raises `ZeroDivisionError` on a
zero divisor, so divisions that can see a zero divisor are modelled with
`pydiv`, which returns `Except String ℚ`.

Omissions (affect no claim): the mouse-distance field of `SensorState`
(a floating-point Euclidean norm, `sensors.py` lines 128-137) and the
platform listener threads; callbacks are modelled as emitted event values.
-/

set_option maxHeartbeats 1000000
set_option maxRecDepth 100000

deriving instance DecidableEq for Except

namespace OpenSati

/-- Python division: `a / b` raises `ZeroDivisionError` when `b == 0`. -/
def pydiv (a b : ℚ) : Except String ℚ :=
  if b = 0 then .error "ZeroDivisionError" else .ok (a / b)

/-- `sum(1 for t in times if t > window_start)` — the windowed event count
used for keystrokes (sensors.py lines 119-121) and clicks (line 125). -/
def count_after (times : List ℚ) (window_start : ℚ) : Nat :=
  (times.map (fun t => if window_start < t then (1 : Nat) else 0)).sum

/-- Append to a `collections.deque(maxlen := cap)`: the new element goes on
the right, the oldest elements are silently dropped from the left once the
capacity is exceeded (sensors.py lines 43-44, 55-56). -/
def dequeAppend (cap : Nat) (d : List ℚ) (t : ℚ) : List ℚ :=
  let d' := d ++ [t]
  if cap < d'.length then d'.drop (d'.length - cap) else d'

/-- `SensorState` dataclass (sensors.py lines 14-23), minus the
floating-point mouse-distance field, which no claim concerns. -/
structure SensorState where
  keystrokes_per_second : ℚ := 0
  mouse_clicks_per_second : ℚ := 0
  current_stress_score : ℚ := 0
  baseline_typing_speed : ℚ := 0
  is_calibrating : Bool := true
deriving DecidableEq

/-- `InputSensor` dataclass (sensors.py lines 26-59): configuration plus the
event deques and the growing baseline-sample list.  `__post_init__`
(lines 53-59) only re-creates the empty deques; it performs no validation. -/
structure InputSensor where
  window_size : ℚ := 10
  baseline_duration : ℚ := 300
  stress_threshold : ℚ := 50
  keystroke_times : List ℚ := []
  click_times : List ℚ := []
  baseline_samples : List ℚ := []
  start_time : ℚ := 0
deriving DecidableEq

/-- `InputSensor.__post_init__` (sensors.py lines 53-59): initializes the
deques and the lock and returns; no configuration value is checked, so
construction never fails. -/
def InputSensor.post_init (window_size baseline_duration stress_threshold : ℚ) :
    Except String InputSensor :=
  .ok { window_size := window_size, baseline_duration := baseline_duration,
        stress_threshold := stress_threshold, keystroke_times := [],
        click_times := [], baseline_samples := [], start_time := 0 }

/-- `InputSensor._on_key_press` (sensors.py lines 95-98): record the
keystroke timestamp (never the key) on the bounded deque. -/
def InputSensor.on_key_press (s : InputSensor) (t : ℚ) : InputSensor :=
  { s with keystroke_times := dequeAppend 1000 s.keystroke_times t }

/-- `InputSensor.get_state` (sensors.py lines 111-158).  Returns the fresh
snapshot together with the sensor (whose `_baseline_samples` list may have
grown during calibration).  The divisions by `window_size` and by
`stress_threshold` are Python divisions and raise on a zero divisor. -/
def InputSensor.get_state (s : InputSensor) (now : ℚ) :
    Except String (SensorState × InputSensor) :=
  let window_start := now - s.window_size
  let is_calibrating := decide (now - s.start_time < s.baseline_duration)
  let recent_keystrokes := count_after s.keystroke_times window_start
  match pydiv (recent_keystrokes : ℚ) s.window_size with
  | .error e => .error e
  | .ok keystrokes_per_second =>
    let recent_clicks := count_after s.click_times window_start
    match pydiv (recent_clicks : ℚ) s.window_size with
    | .error e => .error e
    | .ok clicks_per_second =>
      let samples :=
        if is_calibrating ∧ 0 < recent_keystrokes then
          s.baseline_samples ++ [keystrokes_per_second]
        else s.baseline_samples
      let baseline := if samples = [] then 0 else samples.sum / (samples.length : ℚ)
      match pydiv (recent_keystrokes : ℚ) s.stress_threshold with
      | .error e => .error e
      | .ok ratio =>
        let stress_score := min 100 (ratio * 100)
        .ok ({ keystrokes_per_second := keystrokes_per_second,
               mouse_clicks_per_second := clicks_per_second,
               current_stress_score := stress_score,
               baseline_typing_speed := baseline,
               is_calibrating := is_calibrating },
             { s with baseline_samples := samples })

/-- `StressLevel` enum (detector.py lines 14-20). -/
inductive StressLevel where
  | calm
  | moderate
  | high
  | critical
deriving DecidableEq

/-- `DetectorState` dataclass (detector.py lines 23-33). -/
structure DetectorState where
  level : StressLevel := .calm
  score : ℚ := 0
  input_score : ℚ := 0
  breathing_score : ℚ := 0
  posture_score : ℚ := 0
  last_intervention : ℚ := 0
  can_intervene : Bool := true
deriving DecidableEq

/-- Callback invocations of the detector, modelled as emitted events:
`on_calm_restored()` and `on_stress_detected(level, score)`
(detector.py lines 49-51). -/
inductive DetectorEvent where
  | calmRestored
  | stressDetected (level : StressLevel) (score : ℚ)
deriving DecidableEq

/-- `StressDetector` state (detector.py lines 36-56): the cooldown read from
`settings.intervention.cooldown`, the optional input sensor, and the two
mutable fields `_last_intervention_time` and `_current_level`. -/
structure StressDetector where
  cooldown : ℚ := 120
  input_sensor : Option InputSensor := none
  last_intervention_time : ℚ := 0
  current_level : StressLevel := .calm
deriving DecidableEq

/-- A fresh `StressDetector` (dataclass defaults, detector.py lines 55-56):
`_last_intervention_time = 0.0`, `_current_level = CALM`. -/
def StressDetector.init (cooldown : ℚ) (sensor : Option InputSensor) : StressDetector :=
  { cooldown := cooldown, input_sensor := sensor,
    last_intervention_time := 0, current_level := .calm }

/-- The level ladder of `StressDetector.get_state` (detector.py lines
101-109). -/
def stressLevelOf (total_score : ℚ) : StressLevel :=
  if total_score < 30 then .calm
  else if total_score < 60 then .moderate
  else if total_score < 85 then .high
  else .critical

/-- `StressDetector.get_state` (detector.py lines 81-119): read the sensor,
fuse with the placeholder breathing/posture scores (lines 93-96), classify,
and report `can_intervene = (now - last_intervention_time) > cooldown`
(line 85).  The weights `0.5`, `0.3`, `0.2` of line 99 are the rationals
`5/10`, `3/10`, `2/10`. -/
def StressDetector.get_state (d : StressDetector) (now : ℚ) :
    Except String (DetectorState × StressDetector) :=
  let can_intervene := decide (d.cooldown < now - d.last_intervention_time)
  let inputRes : Except String (ℚ × Option InputSensor) :=
    match d.input_sensor with
    | none => .ok (0, none)
    | some s =>
      match s.get_state now with
      | .error e => .error e
      | .ok (sensor_state, s') => .ok (sensor_state.current_stress_score, some s')
  match inputRes with
  | .error e => .error e
  | .ok (input_score, sensor') =>
    let breathing_score : ℚ := 0
    let posture_score : ℚ := 0
    let total_score :=
      input_score * (5 / 10) + breathing_score * (3 / 10) + posture_score * (2 / 10)
    .ok ({ level := stressLevelOf total_score,
           score := total_score,
           input_score := input_score,
           breathing_score := breathing_score,
           posture_score := posture_score,
           last_intervention := d.last_intervention_time,
           can_intervene := can_intervene },
         { d with input_sensor := sensor' })

/-- The calm-restored trigger of `StressDetector.check_and_intervene`
(detector.py lines 133-136): the previous level was HIGH or CRITICAL and
the current level is CALM. -/
def calm_restored_fires (previous_level level : StressLevel) : Bool :=
  if (previous_level = StressLevel.high ∨ previous_level = StressLevel.critical)
      ∧ level = StressLevel.calm then true else false

/-- The arbitration step of `StressDetector.check_and_intervene`
(detector.py lines 129-146), taking the `DetectorState` that `get_state`
just produced: track the level change, emit `CalmRestored` on a
HIGH/CRITICAL to CALM transition, and fire an intervention (stamping
`_last_intervention_time := now`) when the level is HIGH or CRITICAL and
`can_intervene` holds. -/
def StressDetector.arbitrate (d : StressDetector) (state : DetectorState) (now : ℚ) :
    Bool × StressDetector × List DetectorEvent :=
  let previous_level := d.current_level
  let d1 := { d with current_level := state.level }
  let calm_events :=
    if calm_restored_fires previous_level state.level then [DetectorEvent.calmRestored]
    else []
  if state.level = StressLevel.high ∨ state.level = StressLevel.critical then
    if state.can_intervene then
      (true, { d1 with last_intervention_time := now },
       calm_events ++ [DetectorEvent.stressDetected state.level state.score])
    else (false, d1, calm_events)
  else (false, d1, calm_events)

/-- `StressDetector.check_and_intervene` (detector.py lines 121-146):
`get_state`, then the arbitration step.  Returns (intervention fired,
updated detector, emitted callback events). -/
def StressDetector.check_and_intervene (d : StressDetector) (now : ℚ) :
    Except String (Bool × StressDetector × List DetectorEvent) :=
  match d.get_state now with
  | .error e => .error e
  | .ok (state, d0) => .ok (d0.arbitrate state now)

/-- A step of the running system: a keystroke delivered by the input
listener, or a monitoring tick that calls `check_and_intervene`. -/
inductive SysStep where
  | key (t : ℚ)
  | tick (t : ℚ)
deriving DecidableEq

/-- Keystroke delivery to the detector's sensor (sensors.py lines 95-98);
a detector without an input sensor ignores it. -/
def StressDetector.on_key (d : StressDetector) (t : ℚ) : StressDetector :=
  match d.input_sensor with
  | none => d
  | some s => { d with input_sensor := some (s.on_key_press t) }

/-- Run a list of system steps, collecting the emitted callback events and
the `check_and_intervene` return values. -/
def runSys : StressDetector → List SysStep →
    Except String (StressDetector × List DetectorEvent × List Bool)
  | d, [] => .ok (d, [], [])
  | d, SysStep.key t :: rest => runSys (d.on_key t) rest
  | d, SysStep.tick t :: rest =>
    match d.check_and_intervene t with
    | .error e => .error e
    | .ok (fired, d', evs) =>
      match runSys d' rest with
      | .error e => .error e
      | .ok (d'', evs', fires) => .ok (d'', evs ++ evs', fired :: fires)

/-- Number of calm-restored firings along a sequence of fused levels,
threading the `_current_level` tracking of detector.py lines 129-136. -/
def calm_restored_count : StressLevel → List StressLevel → Nat
  | _, [] => 0
  | prev, l :: ls =>
    (if calm_restored_fires prev l then 1 else 0) + calm_restored_count l ls

/-- Python truthiness of `self._mismatch_start` (`float | None`): `None`
and `0.0` are falsy (intent.py lines 105, 152-153 use `if self._mismatch_start:`). -/
def pytruthy (o : Option ℚ) : Bool :=
  match o with
  | none => false
  | some v => decide (v ≠ 0)

/-- `IntentState` dataclass (intent.py lines 15-24). -/
structure IntentState where
  current_intent : String := ""
  last_check_time : ℚ := 0
  last_match : Bool := true
  last_explanation : String := ""
  mismatch_duration : ℚ := 0
  is_enabled : Bool := false
deriving DecidableEq

/-- An `on_mismatch_detected(intent, explanation)` callback invocation
(intent.py lines 149-150), stamped with the tick time at which it fired. -/
structure MismatchEvent where
  time : ℚ
  intent : String
  explanation : String
deriving DecidableEq

/-- `IntentChecker` state (intent.py lines 27-52): configuration (seconds)
and the mutable fields `_current_intent`, `_last_check`, `_mismatch_start`,
`_last_explanation`, `_running`. -/
structure IntentChecker where
  check_interval : ℚ := 30
  mismatch_threshold : ℚ := 120
  current_intent : String := ""
  last_check : ℚ := 0
  mismatch_start : Option ℚ := none
  last_explanation : String := ""
  running : Bool := false
deriving DecidableEq

/-- `IntentChecker.check` (intent.py lines 91-163).  `image_ok` models
whether the screen capture produced bytes (line 123); `judge` is the
`(matches, explanation)` pair returned by the external judgment
(`check_intent_match`, line 130).  Returns the updated checker, the
returned `IntentState`, and the emitted mismatch callback events. -/
def IntentChecker.check (c : IntentChecker) (now : ℚ) (image_ok : Bool)
    (judge : Bool × String) : IntentChecker × IntentState × List MismatchEvent :=
  if ¬c.running ∨ c.current_intent = "" then
    (c, { is_enabled := false }, [])
  else if now - c.last_check < c.check_interval then
    let mismatch_duration :=
      if pytruthy c.mismatch_start then now - c.mismatch_start.getD 0 else 0
    (c, { current_intent := c.current_intent,
          last_check_time := c.last_check,
          last_match := decide (c.mismatch_start = none),
          last_explanation := c.last_explanation,
          mismatch_duration := mismatch_duration,
          is_enabled := true }, [])
  else
    let c1 := { c with last_check := now }
    if ¬image_ok then
      (c1, { current_intent := c.current_intent, is_enabled := true }, [])
    else
      let matched := judge.1
      let explanation := judge.2
      let c2 := { c1 with last_explanation := explanation }
      let step : IntentChecker × List MismatchEvent :=
        if matched then ({ c2 with mismatch_start := none }, [])
        else
          match c2.mismatch_start with
          | none => ({ c2 with mismatch_start := some now }, [])
          | some ms =>
            if c2.mismatch_threshold ≤ now - ms then
              (c2, [{ time := now, intent := c2.current_intent,
                      explanation := explanation }])
            else (c2, [])
      let c3 := step.1
      let mismatch_duration :=
        if pytruthy c3.mismatch_start then now - c3.mismatch_start.getD 0 else 0
      (c3, { current_intent := c3.current_intent,
             last_check_time := now,
             last_match := matched,
             last_explanation := explanation,
             mismatch_duration := mismatch_duration,
             is_enabled := true }, step.2)

/-- Run `IntentChecker.check` over a list of tick times with a fixed
capture success flag and a fixed judgment result, collecting the emitted
mismatch events in order. -/
def runIntentTrace : IntentChecker → List ℚ → Bool → Bool × String →
    IntentChecker × List MismatchEvent
  | c, [], _, _ => (c, [])
  | c, t :: ts, image_ok, judge =>
    let r := c.check t image_ok judge
    let rest := runIntentTrace r.1 ts image_ok judge
    (rest.1, r.2.2 ++ rest.2)

/-- Python `str.upper()` restricted to ASCII, which is all the judge
prompt format uses. -/
def pyUpper (s : String) : String := s.map Char.toUpper

/-- Python `response.split(":", 1)[-1]`: everything after the first colon
(the whole string when no colon is present). -/
def afterFirstColon (s : String) : String :=
  String.intercalate ":" ((s.splitOn ":").drop 1)

namespace OllamaClient

/-- `OllamaClient.check_intent_match` (ollama_client.py lines 134-165) as a
function of the vision-model response: `analyze_image` returns `none` on
any failure (Ollama unavailable, exception, timeout), and Python's
`if not response` also treats an empty reply as no response; both yield
the fail-open result `(True, "Could not analyze")`.  Otherwise the reply
is stripped, upper-cased, and parsed. -/
def check_intent_match (response : Option String) : Bool × String :=
  match response with
  | none => (true, "Could not analyze")
  | some r =>
    if r = "" then (true, "Could not analyze")
    else
      let resp := pyUpper r.trim
      let matched := resp.startsWith "YES"
      let explanation :=
        if resp.contains ':' then (afterFirstColon resp).trim else resp
      (matched, explanation)

end OllamaClient

/-! Concrete instances used to instantiate the theorems below. -/

/-- A sensor that saw three keystrokes shortly before time 100. -/
def w_sensor : InputSensor :=
  { window_size := 10, baseline_duration := 300, stress_threshold := 50,
    keystroke_times := [95, 96, 97], click_times := [], baseline_samples := [],
    start_time := 0 }

/-- `w_sensor` after `get_state` at time 100 appended a baseline sample. -/
def w_sensor2 : InputSensor := { w_sensor with baseline_samples := [3 / 10] }

/-- The snapshot `w_sensor.get_state 100` returns. -/
def w_state : SensorState :=
  { keystrokes_per_second := 3 / 10, mouse_clicks_per_second := 0,
    current_stress_score := 6, baseline_typing_speed := 3 / 10,
    is_calibrating := true }

/-- A detector owning `w_sensor`. -/
def w_detector : StressDetector :=
  { cooldown := 120, input_sensor := some w_sensor,
    last_intervention_time := 0, current_level := .calm }

/-- `w_detector` after its sensor recorded a baseline sample. -/
def w_detector2 : StressDetector := { w_detector with input_sensor := some w_sensor2 }

/-- The state `w_detector.get_state 100` returns. -/
def w_det_state : DetectorState :=
  { level := .calm, score := 3, input_score := 6, breathing_score := 0,
    posture_score := 0, last_intervention := 0, can_intervene := false }

/-- A sensor-less detector far out of cooldown. -/
def c1_d : StressDetector :=
  { cooldown := 120, input_sensor := none, last_intervention_time := 0,
    current_level := .calm }

/-- A CRITICAL fused state with `can_intervene` as computed at time 1000. -/
def c1_st1 : DetectorState :=
  { level := .critical, score := 90, input_score := 90, breathing_score := 0,
    posture_score := 0, last_intervention := 0, can_intervene := true }

/-- `c1_d` right after firing at time 1000. -/
def c1_d1 : StressDetector :=
  { cooldown := 120, input_sensor := none, last_intervention_time := 1000,
    current_level := .critical }

/-- The events emitted by the firing call at time 1000. -/
def c1_e1 : List DetectorEvent := [DetectorEvent.stressDetected .critical 90]

/-- A CRITICAL fused state with `can_intervene` as computed at time 1050,
inside the cooldown window of the time-1000 intervention. -/
def c1_st2 : DetectorState :=
  { level := .critical, score := 90, input_score := 90, breathing_score := 0,
    posture_score := 0, last_intervention := 1000, can_intervene := false }

/-- A quiet sensor-less detector. -/
def c2_d : StressDetector :=
  { cooldown := 120, input_sensor := none, last_intervention_time := 0,
    current_level := .calm }

/-- The state `c2_d.get_state 10` returns. -/
def c2_st : DetectorState :=
  { level := .calm, score := 0, input_score := 0, breathing_score := 0,
    posture_score := 0, last_intervention := 0, can_intervene := false }

/-- A fresh sensor with all dataclass defaults. -/
def c5_sensor : InputSensor := {}

/-- `c5_sensor` after one keystroke at time 1 and one tick at time 5. -/
def c5_sensor2 : InputSensor :=
  { c5_sensor with keystroke_times := [1], baseline_samples := [1 / 10] }

/-- The detector after running `[key 1, tick 5]` from `init 120 (some c5_sensor)`. -/
def c5_d : StressDetector :=
  { cooldown := 120, input_sensor := some c5_sensor2,
    last_intervention_time := 0, current_level := .calm }

/-- A sensor-less detector whose last observed level was HIGH. -/
def c7_d : StressDetector :=
  { cooldown := 120, input_sensor := none, last_intervention_time := 0,
    current_level := .high }

/-- `c7_d` after an evaluate tick that observed CALM. -/
def c7_d2 : StressDetector := { c7_d with current_level := .calm }

/-- The events of that tick. -/
def c7_evs : List DetectorEvent := [DetectorEvent.calmRestored]

/-- The intent checker of the 125-minute scenario: 30 s check interval,
120 min = 7200 s mismatch threshold, intent "debugging", running. -/
def c4_checker : IntentChecker :=
  { check_interval := 30, mismatch_threshold := 7200,
    current_intent := "debugging", last_check := 0, mismatch_start := none,
    last_explanation := "", running := true }

/-- 251 simulated tick times 30, 60, ..., 7530: ticks every 30 s spanning
125 minutes. -/
def c4_ticks : List ℚ := (List.range 251).map (fun k => 30 + 30 * (k : ℚ))

/-- The mismatch callback invocations over the scenario trace, where the
judgment returns `(false, "social media")` on every check. -/
def c4_events : List MismatchEvent :=
  (runIntentTrace c4_checker c4_ticks true (false, "social media")).2

/-- The sensor produced by `InputSensor.post_init` with `window_size = 0`. -/
def c10_sensor : InputSensor :=
  { window_size := 0, baseline_duration := 300, stress_threshold := 50,
    keystroke_times := [], click_times := [], baseline_samples := [],
    start_time := 0 }

/-! Counting lemmas for the windowed statistics. -/

theorem count_after_eq_filter_length (l : List ℚ) (ws : ℚ) :
    count_after l ws = (l.filter (fun t => decide (ws < t))).length := by
  induction l with
  | nil => rfl
  | cons a l ih =>
    by_cases h : ws < a <;>
      simp [count_after, List.filter_cons, h, List.map, List.sum_cons] at ih ⊢ <;>
      omega

theorem count_after_append (l₁ l₂ : List ℚ) (ws : ℚ) :
    count_after (l₁ ++ l₂) ws = count_after l₁ ws + count_after l₂ ws := by
  simp [count_after, List.map_append, List.sum_append]

theorem count_after_boundary (l : List ℚ) (ws : ℚ) :
    count_after (l ++ [ws]) ws = count_after l ws := by
  simp [count_after_append, count_after, lt_irrefl]

theorem count_filter_of_le (l : List ℚ) (ws t : ℚ) (h : t ≤ ws) :
    (l.filter (fun x => decide (ws < x))).count t = 0 := by
  induction l with
  | nil => rfl
  | cons a l ih =>
    by_cases ha : ws < a
    · have hne : a ≠ t := fun e => absurd (e ▸ ha) (not_lt.mpr h)
      simpa [List.filter_cons, ha, List.count_cons, hne] using ih
    · simpa [List.filter_cons, ha] using ih

theorem count_filter_of_lt (l : List ℚ) (ws t : ℚ) (h : ws < t) :
    (l.filter (fun x => decide (ws < x))).count t = l.count t := by
  induction l with
  | nil => rfl
  | cons a l ih =>
    by_cases ha : ws < a
    · simp [List.filter_cons, ha, List.count_cons, ih]
    · have hne : a ≠ t := fun e => ha (e ▸ h)
      simp [List.filter_cons, ha, List.count_cons, ih, hne]

theorem foldl_dequeAppend (l : List ℚ) :
    ∀ init : List ℚ, init.length + l.length ≤ 1000 →
      List.foldl (dequeAppend 1000) init l = init ++ l := by
  induction l with
  | nil => intro init _; simp
  | cons a l ih =>
    intro init h
    have hlen : ¬ 1000 < (init ++ [a]).length := by
      simp only [List.length_append, List.length_cons, List.length_nil]
      simp only [List.length_cons] at h
      omega
    have hstep : dequeAppend 1000 init a = init ++ [a] := by
      unfold dequeAppend
      rw [if_neg hlen]
    rw [List.foldl_cons, hstep,
      ih (init ++ [a]) (by simp only [List.length_append, List.length_cons,
        List.length_nil, List.length_cons] at h ⊢; omega)]
    simp

/-! Characterization of `InputSensor.get_state` on success. -/

theorem InputSensor.get_state_rates (s : InputSensor) (now : ℚ) (st : SensorState)
    (s' : InputSensor) (h : s.get_state now = .ok (st, s')) :
    s.window_size ≠ 0 ∧ s.stress_threshold ≠ 0 ∧
    st.keystrokes_per_second =
      (count_after s.keystroke_times (now - s.window_size) : ℚ) / s.window_size ∧
    st.current_stress_score =
      min 100 (((count_after s.keystroke_times (now - s.window_size) : ℚ) /
        s.stress_threshold) * 100) := by
  by_cases hw : s.window_size = 0
  · simp [InputSensor.get_state, pydiv, hw] at h
  · by_cases hth : s.stress_threshold = 0
    · simp [InputSensor.get_state, pydiv, hw, hth] at h
    · simp only [InputSensor.get_state, pydiv, hw, if_false, hth,
        if_neg hw, if_neg hth, Except.ok.injEq, Prod.mk.injEq] at h
      refine ⟨hw, hth, ?_, ?_⟩
      · rw [← h.1]
      · rw [← h.1]

theorem InputSensor.score_le_100 (s : InputSensor) (now : ℚ) (st : SensorState)
    (s' : InputSensor) (h : s.get_state now = .ok (st, s')) :
    st.current_stress_score ≤ 100 := by
  obtain ⟨-, -, -, hscore⟩ := InputSensor.get_state_rates s now st s' h
  rw [hscore]
  exact min_le_left _ _

/-- C6: for every stored list of event timestamps and every query time, the
windowed keystroke rate of `InputSensor.get_state` equals the count of stored
events with timestamp strictly greater than `now - window_size`, divided by
`window_size`; an event exactly at `now - window_size` contributes nothing
(strict `>`), no older event is counted, no event strictly inside the window
is undercounted, and a recorded sequence within the deque capacity is stored
in full. -/
theorem rate_in_window_strict (s : InputSensor) (now : ℚ) (st : SensorState)
    (s' : InputSensor) (h : s.get_state now = .ok (st, s')) :
    st.keystrokes_per_second =
      ((s.keystroke_times.filter (fun t => decide (now - s.window_size < t))).length : ℚ) /
        s.window_size ∧
    count_after (s.keystroke_times ++ [now - s.window_size]) (now - s.window_size) =
      count_after s.keystroke_times (now - s.window_size) ∧
    (∀ t : ℚ, t ≤ now - s.window_size →
      (s.keystroke_times.filter (fun x => decide (now - s.window_size < x))).count t = 0) ∧
    (∀ t : ℚ, now - s.window_size < t →
      (s.keystroke_times.filter (fun x => decide (now - s.window_size < x))).count t =
        s.keystroke_times.count t) ∧
    (∀ recorded : List ℚ, recorded.length ≤ 1000 →
      List.foldl (dequeAppend 1000) [] recorded = recorded) := by
  obtain ⟨-, -, hk, -⟩ := InputSensor.get_state_rates s now st s' h
  refine ⟨?_, count_after_boundary _ _,
    fun t ht => count_filter_of_le _ _ _ ht,
    fun t ht => count_filter_of_lt _ _ _ ht,
    fun recorded hrec => ?_⟩
  · rw [hk, count_after_eq_filter_length]
  · simpa using foldl_dequeAppend recorded [] (by simpa using hrec)

/-- C6 witness: the theorem instantiated at `w_sensor` and time 100. -/
theorem rate_in_window_strict_witness :
    w_state.keystrokes_per_second =
      ((w_sensor.keystroke_times.filter
        (fun t => decide ((100 : ℚ) - w_sensor.window_size < t))).length : ℚ) /
        w_sensor.window_size :=
  (rate_in_window_strict w_sensor 100 w_state w_sensor2
    (of_decide_eq_true (by with_unfolding_all rfl))).1

/-- C8: `current_stress_score` equals
`clamp(100 * windowed_keystroke_count / stress_threshold, 0, 100)` — computed
from the absolute count in the window, not the per-second rate — so it lies
in [0, 100] and is exactly 100 whenever the count reaches the threshold. -/
theorem stress_score_clamped (s : InputSensor) (now : ℚ) (st : SensorState)
    (s' : InputSensor) (h : s.get_state now = .ok (st, s'))
    (hth : 0 < s.stress_threshold) :
    st.current_stress_score =
      max 0 (min 100 (100 * (count_after s.keystroke_times (now - s.window_size) : ℚ) /
        s.stress_threshold)) ∧
    0 ≤ st.current_stress_score ∧ st.current_stress_score ≤ 100 ∧
    (s.stress_threshold ≤ (count_after s.keystroke_times (now - s.window_size) : ℚ) →
      st.current_stress_score = 100) := by
  obtain ⟨-, -, -, hsc⟩ := InputSensor.get_state_rates s now st s' h
  have hk0 : (0 : ℚ) ≤ (count_after s.keystroke_times (now - s.window_size) : ℚ) :=
    Nat.cast_nonneg _
  have harith : ((count_after s.keystroke_times (now - s.window_size) : ℚ) /
      s.stress_threshold) * 100 =
      100 * (count_after s.keystroke_times (now - s.window_size) : ℚ) /
        s.stress_threshold := by ring
  have hx0 : (0 : ℚ) ≤ 100 * (count_after s.keystroke_times (now - s.window_size) : ℚ) /
      s.stress_threshold := by positivity
  refine ⟨?_, ?_, ?_, ?_⟩
  · rw [hsc, harith, max_eq_right (le_min (by norm_num) hx0)]
  · rw [hsc]
    exact le_min (by norm_num) (by rw [harith]; exact hx0)
  · rw [hsc]
    exact min_le_left _ _
  · intro hge
    have h100 : (100 : ℚ) ≤ ((count_after s.keystroke_times (now - s.window_size) : ℚ) /
        s.stress_threshold) * 100 := by
      rw [harith, le_div_iff₀ hth]
      nlinarith
    rw [hsc, min_eq_left h100]

/-- C8 witness: the theorem instantiated at `w_sensor` and time 100. -/
theorem stress_score_clamped_witness :
    w_state.current_stress_score =
      max 0 (min 100 (100 * (count_after w_sensor.keystroke_times
        ((100 : ℚ) - w_sensor.window_size) : ℚ) / w_sensor.stress_threshold)) :=
  (stress_score_clamped w_sensor 100 w_state w_sensor2
    (of_decide_eq_true (by with_unfolding_all rfl))
    (of_decide_eq_true (by with_unfolding_all rfl))).1

/-! Characterization of the detector operations. -/

theorem StressDetector.get_state_fields (d : StressDetector) (now : ℚ) (st : DetectorState)
    (d0 : StressDetector) (h : d.get_state now = .ok (st, d0)) :
    st.can_intervene = decide (d.cooldown < now - d.last_intervention_time) ∧
    st.breathing_score = 0 ∧ st.posture_score = 0 ∧
    st.score = st.input_score * (5 / 10) + st.breathing_score * (3 / 10) +
      st.posture_score * (2 / 10) ∧
    st.level = stressLevelOf st.score ∧
    st.input_score ≤ 100 ∧
    st.last_intervention = d.last_intervention_time ∧
    d0.cooldown = d.cooldown ∧ d0.last_intervention_time = d.last_intervention_time ∧
    d0.current_level = d.current_level := by
  cases hsen : d.input_sensor with
  | none =>
    simp only [StressDetector.get_state, hsen, Except.ok.injEq, Prod.mk.injEq] at h
    obtain ⟨h1, h2⟩ := h
    subst h1; subst h2
    refine ⟨rfl, rfl, rfl, rfl, rfl, by norm_num, rfl, rfl, rfl, rfl⟩
  | some s =>
    cases hss : s.get_state now with
    | error e =>
      simp only [StressDetector.get_state, hsen, hss] at h
      exact Except.noConfusion h
    | ok p =>
      obtain ⟨sst, s'⟩ := p
      have hle : sst.current_stress_score ≤ 100 :=
        InputSensor.score_le_100 s now sst s' hss
      simp only [StressDetector.get_state, hsen, hss, Except.ok.injEq,
        Prod.mk.injEq] at h
      obtain ⟨h1, h2⟩ := h
      subst h1; subst h2
      refine ⟨rfl, rfl, rfl, rfl, rfl, hle, rfl, rfl, rfl, rfl⟩

theorem StressDetector.score_bounded (d : StressDetector) (now : ℚ) (st : DetectorState)
    (d0 : StressDetector) (h : d.get_state now = .ok (st, d0)) :
    st.score ≤ 50 ∧ (st.level = .calm ∨ st.level = .moderate) := by
  obtain ⟨-, hb, hp, hs, hl, hi, -⟩ := StressDetector.get_state_fields d now st d0 h
  have hs50 : st.score ≤ 50 := by rw [hs, hb, hp]; linarith
  refine ⟨hs50, ?_⟩
  rw [hl]
  unfold stressLevelOf
  split_ifs with h1 h2 h3
  · exact Or.inl rfl
  · exact Or.inr rfl
  · exact absurd (by linarith : st.score < 60) h2
  · exact absurd (by linarith : st.score < 60) h2

theorem calm_restored_fires_iff (a b : StressLevel) :
    calm_restored_fires a b = true ↔ ((a = .high ∨ a = .critical) ∧ b = .calm) := by
  unfold calm_restored_fires
  split_ifs with h <;> simp [h]

theorem calm_restored_fires_of_nonelevated (a b : StressLevel)
    (h : a = .calm ∨ a = .moderate) : calm_restored_fires a b = false := by
  unfold calm_restored_fires
  split_ifs with hc
  · rcases h with h | h <;> rcases hc.1 with h2 | h2 <;> simp [h] at h2
  · rfl

theorem StressDetector.arbitrate_spec (d : StressDetector) (st : DetectorState) (now : ℚ)
    (fired : Bool) (d' : StressDetector) (evs : List DetectorEvent)
    (h : d.arbitrate st now = (fired, d', evs)) :
    d'.current_level = st.level ∧ d'.cooldown = d.cooldown ∧
    (fired = true ↔ ((st.level = .high ∨ st.level = .critical) ∧ st.can_intervene = true)) ∧
    (fired = true → d'.last_intervention_time = now) ∧
    (fired = false → d'.last_intervention_time = d.last_intervention_time) ∧
    (DetectorEvent.calmRestored ∈ evs ↔ calm_restored_fires d.current_level st.level = true) ∧
    evs.count DetectorEvent.calmRestored =
      (if calm_restored_fires d.current_level st.level then 1 else 0) ∧
    ((st.level = .calm ∨ st.level = .moderate) → fired = false) ∧
    (calm_restored_fires d.current_level st.level = false → fired = false → evs = []) := by
  unfold StressDetector.arbitrate at h
  split_ifs at h with hlev hcan
  · simp only [Prod.mk.injEq] at h
    obtain ⟨rfl, rfl, rfl⟩ := h
    refine ⟨rfl, rfl, ⟨fun _ => ⟨hlev, hcan⟩, fun _ => rfl⟩, fun _ => rfl,
      fun hf => absurd hf (by simp), ?_, ?_, ?_, fun _ hf => absurd hf (by simp)⟩
    · cases hb : calm_restored_fires d.current_level st.level <;> simp [hb]
    · cases hb : calm_restored_fires d.current_level st.level <;>
        simp [hb, List.count_cons]
    · rintro (hc | hc) <;> rcases hlev with hl | hl <;> rw [hc] at hl <;> simp at hl
  · simp only [Prod.mk.injEq] at h
    obtain ⟨rfl, rfl, rfl⟩ := h
    have hcan' : st.can_intervene = false := by
      cases hcv : st.can_intervene
      · rfl
      · exact absurd hcv hcan
    refine ⟨rfl, rfl, ⟨fun hf => absurd hf (by simp), fun hc => absurd hcan' (by simp [hc.2])⟩,
      fun hf => absurd hf (by simp), fun _ => rfl, ?_, ?_, fun _ => rfl, ?_⟩
    · cases hb : calm_restored_fires d.current_level st.level <;> simp [hb]
    · cases hb : calm_restored_fires d.current_level st.level <;>
        simp [hb, List.count_cons]
    · intro hb _
      simp [hb]
  · simp only [Prod.mk.injEq] at h
    obtain ⟨rfl, rfl, rfl⟩ := h
    refine ⟨rfl, rfl, ⟨fun hf => absurd hf (by simp), fun hc => absurd hc.1 hlev⟩,
      fun hf => absurd hf (by simp), fun _ => rfl, ?_, ?_, fun _ => rfl, ?_⟩
    · cases hb : calm_restored_fires d.current_level st.level <;> simp [hb]
    · cases hb : calm_restored_fires d.current_level st.level <;>
        simp [hb, List.count_cons]
    · intro hb _
      simp [hb]

theorem StressDetector.check_ok (d : StressDetector) (now : ℚ) (fired : Bool)
    (d' : StressDetector) (evs : List DetectorEvent)
    (h : d.check_and_intervene now = .ok (fired, d', evs)) :
    ∃ st d0, d.get_state now = .ok (st, d0) ∧ d0.arbitrate st now = (fired, d', evs) := by
  unfold StressDetector.check_and_intervene at h
  cases hg : d.get_state now with
  | error e => rw [hg] at h; simp at h
  | ok p =>
    obtain ⟨st, d0⟩ := p
    rw [hg] at h
    simp only [Except.ok.injEq] at h
    exact ⟨st, d0, rfl, h⟩

theorem stressLevelOf_iff (s : ℚ) :
    (stressLevelOf s = .calm ↔ s < 30) ∧
    (stressLevelOf s = .moderate ↔ 30 ≤ s ∧ s < 60) ∧
    (stressLevelOf s = .high ↔ 60 ≤ s ∧ s < 85) ∧
    (stressLevelOf s = .critical ↔ 85 ≤ s) := by
  unfold stressLevelOf
  split_ifs with h1 h2 h3 <;>
    refine ⟨⟨fun hh => ?_, fun hh => ?_⟩, ⟨fun hh => ?_, fun hh => ?_⟩,
      ⟨fun hh => ?_, fun hh => ?_⟩, ⟨fun hh => ?_, fun hh => ?_⟩⟩ <;>
    first
      | rfl
      | exact hh.elim
      | linarith
      | exact StressLevel.noConfusion hh
      | exact ⟨by linarith, by linarith⟩

theorem StressDetector.on_key_level (d : StressDetector) (t : ℚ) :
    (d.on_key t).current_level = d.current_level := by
  unfold StressDetector.on_key
  cases h : d.input_sensor <;> simp

theorem runSys_calm (steps : List SysStep) :
    ∀ d d' evs fires, (d.current_level = .calm ∨ d.current_level = .moderate) →
      runSys d steps = .ok (d', evs, fires) →
      evs = [] ∧ ∀ b ∈ fires, b = false := by
  induction steps with
  | nil =>
    intro d d' evs fires _ h
    simp only [runSys, Except.ok.injEq, Prod.mk.injEq] at h
    obtain ⟨-, rfl, rfl⟩ := h
    exact ⟨rfl, by simp⟩
  | cons step rest ih =>
    intro d d' evs fires hin h
    cases step with
    | key t =>
      simp only [runSys] at h
      exact ih _ _ _ _ (by rw [StressDetector.on_key_level]; exact hin) h
    | tick t =>
      simp only [runSys] at h
      cases hchk : d.check_and_intervene t with
      | error e => rw [hchk] at h; exact Except.noConfusion h
      | ok trip =>
        obtain ⟨fired, d1, evs1⟩ := trip
        rw [hchk] at h
        dsimp only at h
        cases hrest : runSys d1 rest with
        | error e => rw [hrest] at h; exact Except.noConfusion h
        | ok out =>
          obtain ⟨d2, evs2, fs2⟩ := out
          rw [hrest] at h
          simp only [Except.ok.injEq, Prod.mk.injEq] at h
          obtain ⟨rfl, rfl, rfl⟩ := h
          obtain ⟨st, d0, hget, harb⟩ :=
            StressDetector.check_ok d t fired d1 evs1 hchk
          obtain ⟨-, -, -, -, -, -, -, -, -, hframe⟩ :=
            StressDetector.get_state_fields d t st d0 hget
          obtain ⟨-, hlmm⟩ := StressDetector.score_bounded d t st d0 hget
          obtain ⟨hcur, -, -, -, -, -, -, hnofire, hnoev⟩ :=
            StressDetector.arbitrate_spec d0 st t fired d1 evs1 harb
          have hfired : fired = false := hnofire hlmm
          have hfires0 : calm_restored_fires d0.current_level st.level = false := by
            rw [hframe]
            exact calm_restored_fires_of_nonelevated _ _ hin
          have hevs1 : evs1 = [] := hnoev hfires0 hfired
          have hin1 : d1.current_level = .calm ∨ d1.current_level = .moderate := by
            rw [hcur]; exact hlmm
          obtain ⟨hevs2, hfs2⟩ := ih d1 d2 evs2 fs2 hin1 hrest
          refine ⟨by rw [hevs1, hevs2]; rfl, ?_⟩
          intro b hb
          rcases List.mem_cons.mp hb with hb | hb
          · rw [hb, hfired]
          · exact hfs2 b hb

/-- C2: the discrete stress level returned by `StressDetector.get_state` is a
pure step function of the composite score with half-open thresholds: CALM iff
score < 30, MODERATE iff 30 ≤ score < 60, HIGH iff 60 ≤ score < 85, CRITICAL
iff score ≥ 85, with boundary values mapping to the higher level. -/
theorem level_thresholds_exact (d : StressDetector) (now : ℚ) (st : DetectorState)
    (d0 : StressDetector) (h : d.get_state now = .ok (st, d0)) :
    ((st.level = .calm ↔ st.score < 30) ∧
     (st.level = .moderate ↔ 30 ≤ st.score ∧ st.score < 60) ∧
     (st.level = .high ↔ 60 ≤ st.score ∧ st.score < 85) ∧
     (st.level = .critical ↔ 85 ≤ st.score)) ∧
    (∀ sc : ℚ, (stressLevelOf sc = .calm ↔ sc < 30) ∧
      (stressLevelOf sc = .moderate ↔ 30 ≤ sc ∧ sc < 60) ∧
      (stressLevelOf sc = .high ↔ 60 ≤ sc ∧ sc < 85) ∧
      (stressLevelOf sc = .critical ↔ 85 ≤ sc)) := by
  obtain ⟨-, -, -, -, hl, -⟩ := StressDetector.get_state_fields d now st d0 h
  exact ⟨by rw [hl]; exact stressLevelOf_iff st.score, fun sc => stressLevelOf_iff sc⟩

/-- C2 witness: the theorem instantiated at the sensor-less detector `c2_d`
and time 10. -/
theorem level_thresholds_exact_witness :
    c2_st.level = .calm ↔ c2_st.score < 30 :=
  ((level_thresholds_exact c2_d 10 c2_st c2_d
      (of_decide_eq_true (by with_unfolding_all rfl))).1).1

/-- C3: the composite score equals
`input_score * 0.5 + breathing_score * 0.3 + posture_score * 0.2` with these
fixed weights; the disabled breathing/posture signals contribute exactly 0,
and the weights are never renormalized: with only the input signal enabled
the composite equals `input_score * 0.5`, so even a maximal input score of
100 yields a composite of only 50. -/
theorem weighted_fusion_fixed (d : StressDetector) (now : ℚ) (st : DetectorState)
    (d0 : StressDetector) (h : d.get_state now = .ok (st, d0)) :
    st.score = st.input_score * (5 / 10) + st.breathing_score * (3 / 10) +
      st.posture_score * (2 / 10) ∧
    st.breathing_score = 0 ∧ st.posture_score = 0 ∧
    st.score = st.input_score * (5 / 10) ∧
    (st.input_score = 100 → st.score = 50) := by
  obtain ⟨-, hb, hp, hs, -⟩ := StressDetector.get_state_fields d now st d0 h
  refine ⟨hs, hb, hp, ?_, ?_⟩
  · rw [hs, hb, hp]; ring
  · intro h100; rw [hs, hb, hp, h100]; norm_num

/-- C3 witness: the theorem instantiated at `w_detector` and time 100. -/
theorem weighted_fusion_fixed_witness :
    w_det_state.score = w_det_state.input_score * (5 / 10) :=
  (weighted_fusion_fixed w_detector 100 w_det_state w_detector2
    (of_decide_eq_true (by with_unfolding_all rfl))).2.2.2.1

/-- C5 (implicit): with breathing and posture hard-coded to 0 and the input
stress score capped at 100, every composite score an evaluate call can see is
at most 50, so the level is always CALM or MODERATE; along any run of the
system from a fresh detector, `check_and_intervene` always returns false and
neither the `on_stress_detected` nor the `on_calm_restored` callback is ever
invoked. -/
theorem placeholder_scores_never_intervene :
    (∀ s now st s', InputSensor.get_state s now = .ok (st, s') →
      st.current_stress_score ≤ 100) ∧
    (∀ d now st d0, StressDetector.get_state d now = .ok (st, d0) →
      st.score ≤ 50 ∧ (st.level = .calm ∨ st.level = .moderate)) ∧
    (∀ cooldown sensor steps d' evs fires,
      runSys (StressDetector.init cooldown sensor) steps = .ok (d', evs, fires) →
      evs = [] ∧ ∀ b ∈ fires, b = false) :=
  ⟨fun s now st s' h => InputSensor.score_le_100 s now st s' h,
   fun d now st d0 h => StressDetector.score_bounded d now st d0 h,
   fun _ _ steps d' evs fires h => runSys_calm steps _ d' evs fires (Or.inl rfl) h⟩

/-- C5 witness: a run with one keystroke and one tick emits no events and
returns false. -/
theorem placeholder_scores_never_intervene_witness :
    ([] : List DetectorEvent) = [] ∧ ∀ b ∈ [false], b = false :=
  placeholder_scores_never_intervene.2.2 120 (some c5_sensor)
    [SysStep.key 1, SysStep.tick 5] c5_d [] [false]
    (of_decide_eq_true (by with_unfolding_all rfl))

/-- C1: cooldown is a hard floor on interventions.  For two consecutive
evaluate steps at times t1 and t2 whose `can_intervene` flags were computed
by `get_state` (last conjunct), if the first fired then the second cannot
fire while `t2 - t1 < cooldown`, whatever its fused level (even CRITICAL);
conversely consecutive firings are strictly more than `cooldown` apart,
because `can_intervene` requires `now - last_intervention_time > cooldown`. -/
theorem cooldown_hard_floor (d : StressDetector) (t1 t2 : ℚ) (st1 st2 : DetectorState)
    (f1 f2 : Bool) (d1 d2 : StressDetector) (e1 e2 : List DetectorEvent)
    (hc1 : st1.can_intervene = decide (d.cooldown < t1 - d.last_intervention_time))
    (h1 : d.arbitrate st1 t1 = (f1, d1, e1)) (hf1 : f1 = true)
    (hc2 : st2.can_intervene = decide (d1.cooldown < t2 - d1.last_intervention_time))
    (h2 : d1.arbitrate st2 t2 = (f2, d2, e2)) :
    (t2 - t1 < d.cooldown → f2 = false) ∧
    (f2 = true → d.cooldown < t2 - t1) ∧
    (∀ dd nw stt dd0, StressDetector.get_state dd nw = .ok (stt, dd0) →
      stt.can_intervene = decide (dd.cooldown < nw - dd.last_intervention_time) ∧
      StressDetector.check_and_intervene dd nw = .ok (dd0.arbitrate stt nw)) := by
  subst hf1
  obtain ⟨-, hcd1, -, hlast1, -⟩ :=
    StressDetector.arbitrate_spec d st1 t1 true d1 e1 h1
  have hlast : d1.last_intervention_time = t1 := hlast1 rfl
  obtain ⟨-, -, hf2iff, -⟩ :=
    StressDetector.arbitrate_spec d1 st2 t2 f2 d2 e2 h2
  have hfire2 : f2 = true → d.cooldown < t2 - t1 := by
    intro hf2
    have hcv := (hf2iff.mp hf2).2
    rw [hc2, hcd1, hlast] at hcv
    exact of_decide_eq_true hcv
  refine ⟨?_, hfire2, ?_⟩
  · intro hlt
    cases hfv : f2
    · rfl
    · exact absurd (hfire2 hfv) (by linarith)
  · intro dd nw stt dd0 hg
    refine ⟨(StressDetector.get_state_fields dd nw stt dd0 hg).1, ?_⟩
    unfold StressDetector.check_and_intervene
    rw [hg]

/-- C1 witness: a firing at time 1000 with cooldown 120 suppresses the
evaluate step at time 1050 even though its level is CRITICAL. -/
theorem cooldown_hard_floor_witness :
    (c1_d1.arbitrate c1_st2 1050).1 = false :=
  (cooldown_hard_floor c1_d 1000 1050 c1_st1 c1_st2 true
      (c1_d1.arbitrate c1_st2 1050).1 c1_d1 (c1_d1.arbitrate c1_st2 1050).2.1
      c1_e1 (c1_d1.arbitrate c1_st2 1050).2.2
      (of_decide_eq_true (by with_unfolding_all rfl))
      (of_decide_eq_true (by with_unfolding_all rfl)) rfl
      (of_decide_eq_true (by with_unfolding_all rfl)) rfl).1
    (of_decide_eq_true (by with_unfolding_all rfl))

/-- C7: an evaluate tick emits `CalmRestored` if and only if the previous
level was HIGH or CRITICAL and the new level is CALM — and then exactly once;
for the level sequence CALM, CALM, HIGH, CALM it fires exactly once, and
appending further CALM ticks does not re-fire it. -/
theorem calm_restored_transition :
    (∀ d now fired d' evs,
      StressDetector.check_and_intervene d now = .ok (fired, d', evs) →
      ((DetectorEvent.calmRestored ∈ evs ↔
        ((d.current_level = .high ∨ d.current_level = .critical) ∧
          d'.current_level = .calm)) ∧
       evs.count DetectorEvent.calmRestored =
        (if ((d.current_level = .high ∨ d.current_level = .critical) ∧
            d'.current_level = .calm) then 1 else 0))) ∧
    calm_restored_count .calm [.calm, .calm, .high, .calm] = 1 ∧
    calm_restored_count .calm [.calm, .calm, .high, .calm, .calm, .calm] = 1 := by
  refine ⟨?_, by decide, by decide⟩
  intro d now fired d' evs h
  obtain ⟨st, d0, hget, harb⟩ := StressDetector.check_ok d now fired d' evs h
  obtain ⟨-, -, -, -, -, -, -, -, -, hframe⟩ :=
    StressDetector.get_state_fields d now st d0 hget
  obtain ⟨hcur, -, -, -, -, hmem, hcount, -⟩ :=
    StressDetector.arbitrate_spec d0 st now fired d' evs harb
  rw [hframe] at hmem hcount
  have hiff : (calm_restored_fires d.current_level st.level = true) ↔
      ((d.current_level = .high ∨ d.current_level = .critical) ∧
        d'.current_level = .calm) := by
    rw [calm_restored_fires_iff, hcur]
  constructor
  · rw [hmem, hiff]
  · rw [hcount]
    by_cases hcond : ((d.current_level = .high ∨ d.current_level = .critical) ∧
        d'.current_level = .calm)
    · rw [if_pos hcond, if_pos (hiff.mpr hcond)]
    · rw [if_neg hcond, if_neg ?_]
      intro hb
      exact hcond (hiff.mp hb)

/-- C7 witness: a detector whose previous level was HIGH observes CALM and
emits `CalmRestored`. -/
theorem calm_restored_transition_witness :
    DetectorEvent.calmRestored ∈ c7_evs :=
  ((calm_restored_transition.1 c7_d 5 false c7_d2 c7_evs
      (of_decide_eq_true (by with_unfolding_all rfl))).1).mpr ⟨Or.inl rfl, rfl⟩

/-- C9: the intent-match judgment fails open.  When the vision call fails
(`none`) or returns an empty response, `check_intent_match` returns
`(True, "Could not analyze")`; and a `matches = true` judgment never emits a
mismatch event and never starts a mismatch period (`_mismatch_start` is
either cleared or left untouched by the check). -/
theorem intent_judgment_fails_open :
    OllamaClient.check_intent_match none = (true, "Could not analyze") ∧
    OllamaClient.check_intent_match (some "") = (true, "Could not analyze") ∧
    (∀ c now image_ok expl,
      (IntentChecker.check c now image_ok (true, expl)).2.2 = [] ∧
      ((IntentChecker.check c now image_ok (true, expl)).1.mismatch_start = none ∨
       (IntentChecker.check c now image_ok (true, expl)).1.mismatch_start =
         c.mismatch_start)) := by
  refine ⟨rfl, rfl, ?_⟩
  intro c now image_ok expl
  unfold IntentChecker.check
  split_ifs with h1 h2 h3 <;>
    dsimp only <;>
    first
      | exact ⟨rfl, Or.inr rfl⟩
      | exact ⟨rfl, Or.inl rfl⟩

/-- C4 counterexample: in the 125-minute scenario (intent set, judgment
returning false on every check, 30 s check interval, 7200 s threshold) the
`on_mismatch_detected` callback does not fire exactly once: the code has no
latch, so it fires on the 120-minute crossing and then again on every later
check — 11 times along this trace. -/
theorem intent_mismatch_not_exactly_once : ¬ c4_events.length = 1 :=
  of_decide_eq_true (by with_unfolding_all rfl)

/-- C4 amended: along the scenario trace the callback fires on every check
from the 120-minute mark on while the mismatch persists — 11 times here —
the first exactly at `mismatch_start + 7200 = 7230` (every firing time is at
least 7230 and one is at most 7230) and none before it, each carrying the
intent and the judge's explanation. -/
theorem intent_mismatch_fires_every_check_past_threshold :
    c4_events.length = 11 ∧
    (∀ e ∈ c4_events, (7230 : ℚ) ≤ e.time ∧ e.intent = "debugging" ∧
      e.explanation = "social media") ∧
    (∃ e ∈ c4_events, e.time ≤ (7230 : ℚ)) :=
  of_decide_eq_true (by with_unfolding_all rfl)

/-- C10 counterexample: constructing the input sensor with `window_size = 0`
does not fail — `__post_init__` performs no validation, so construction
returns the sensor. -/
theorem zero_window_accepted_at_construction :
    InputSensor.post_init 0 300 50 = .ok c10_sensor := rfl

/-- C10 amended: a zero window length is not rejected at construction time;
the sensor is built, and the division by zero instead surfaces on the first
`get_state` call as a `ZeroDivisionError` in the rate computation. -/
theorem zero_window_divzero_in_get_state :
    InputSensor.post_init 0 300 50 = .ok c10_sensor ∧
    c10_sensor.get_state 100 = .error "ZeroDivisionError" :=
  ⟨rfl, of_decide_eq_true (by with_unfolding_all rfl)⟩

end OpenSati
